import Mathlib

/-!
Shallow embedding of `src/server/src/lib.rs` of the lrclib server:
the shared application state (`AppState`), its construction inside `serve`,
the two periodic metrics tasks, the request-span header extraction, the
startup failure behaviour and the `shutdown_signal` future.
-/

namespace LrclibServer

/-- Modulus of Rust `usize` arithmetic on a 64-bit target; `AtomicUsize`
operations wrap at this bound. -/
def usizeMod : Nat := 2 ^ 64

/-- Modelled from the spec: `entities::missing_track::MissingTrack` is not
under `src/`; per the spec it is "a value type carrying enough track metadata
(title/artist/album/duration or id)". Its fields are irrelevant to the queue
claims. -/
structure MissingTrack where
  title : String
  artist : String
  album : String
  duration : Nat
deriving DecidableEq, Repr

/-- A concrete `MissingTrack` used to instantiate statements. -/
def sampleTrack : MissingTrack := ⟨"t", "a", "al", 0⟩

/-- `crossbeam_queue::ArrayQueue`: a bounded FIFO queue with a capacity fixed
at construction. The element list is kept oldest-first. -/
structure ArrayQueue (α : Type) where
  cap : Nat
  items : List α
deriving DecidableEq, Repr

/-- `ArrayQueue::new(cap)`: an empty queue of the given fixed capacity. -/
def ArrayQueue.new (α : Type) (cap : Nat) : ArrayQueue α := ⟨cap, []⟩

/-- `ArrayQueue::push`: non-blocking; if the queue is full the element is
returned back to the caller (`Err(value)`, modelled as `some x`) and the
queue is unchanged, otherwise the element is appended and `Ok(())`
(modelled as `none`) is returned. -/
def ArrayQueue.push {α : Type} (q : ArrayQueue α) (x : α) :
    ArrayQueue α × Option α :=
  if q.items.length ≥ q.cap then (q, some x)
  else ({ q with items := q.items ++ [x] }, none)

/-- `ArrayQueue::pop`: removes and returns the oldest element, or `none`
when the queue is empty. -/
def ArrayQueue.pop {α : Type} (q : ArrayQueue α) : ArrayQueue α × Option α :=
  match q with
  | ⟨cap, []⟩ => (⟨cap, []⟩, none)
  | ⟨cap, x :: rest⟩ => (⟨cap, rest⟩, some x)

/-- A producer/consumer operation on the queue. -/
inductive QueueOp (α : Type) where
  | push (x : α)
  | pop
deriving DecidableEq, Repr

/-- Apply one queue operation, keeping only the resulting queue. -/
def applyQueueOp {α : Type} (q : ArrayQueue α) : QueueOp α → ArrayQueue α
  | .push x => (q.push x).1
  | .pop => (q.pop).1

/-- Run a sequence of enqueue/dequeue operations from a starting queue. -/
def runQueueOps {α : Type} (q : ArrayQueue α) (ops : List (QueueOp α)) :
    ArrayQueue α :=
  ops.foldl applyQueueOp q

/-- The missing-track queue as constructed in `serve`
(`queue: ArrayQueue::new(600000)`, line 80 of `lib.rs`). -/
def missingTrackQueue : ArrayQueue MissingTrack := ArrayQueue.new MissingTrack 600000

/-- Per-tier cache policy as set by the `moka` cache builders:
time-to-live and time-to-idle in seconds (absent when the builder does not
set them) and the maximum entry capacity. -/
structure CacheConfig where
  timeToLive : Option Nat
  timeToIdle : Option Nat
  maxCapacity : Nat
deriving DecidableEq, Repr

/-- `challenge_cache` builder (lines 67–70 of `lib.rs`):
`time_to_live(Duration::from_secs(60 * 5))`, `max_capacity(100000)`. -/
def challengeCacheConfig : CacheConfig :=
  { timeToLive := some (60 * 5), timeToIdle := none, maxCapacity := 100000 }

/-- `get_cache` builder (lines 71–74 of `lib.rs`):
`time_to_live(Duration::from_secs(60 * 60 * 24 * 7))`, `max_capacity(5000000)`. -/
def getCacheConfig : CacheConfig :=
  { timeToLive := some (60 * 60 * 24 * 7), timeToIdle := none, maxCapacity := 5000000 }

/-- `search_cache` builder (lines 75–79 of `lib.rs`):
`time_to_live(Duration::from_secs(60 * 60 * 24))`,
`time_to_idle(Duration::from_secs(60 * 60 * 4))`, `max_capacity(400000)`. -/
def searchCacheConfig : CacheConfig :=
  { timeToLive := some (60 * 60 * 24), timeToIdle := some (60 * 60 * 4),
    maxCapacity := 400000 }

/-- The fixed configuration of the `AppState` aggregate as constructed once
in `serve` (lines 64–84 of `lib.rs`): three cache tiers, the queue capacity
and the two counters' initial values. Nothing in `serve` mutates these
after construction. -/
structure AppStateConfig where
  challengeCache : CacheConfig
  getCache : CacheConfig
  searchCache : CacheConfig
  queueCapacity : Nat
  requestCounterInit : Nat
  recentLyricsCountInit : Nat
deriving DecidableEq, Repr

/-- The one `AppState` configuration built by `serve`. -/
def appStateConfig : AppStateConfig :=
  { challengeCache := challengeCacheConfig
    getCache := getCacheConfig
    searchCache := searchCacheConfig
    queueCapacity := 600000
    requestCounterInit := 0
    recentLyricsCountInit := 0 }

/-- One linearized event on the request counter: an `on_request` increment
(`request_counter.fetch_add(1, Ordering::Relaxed)`, line 161 of `lib.rs`) or
one tick of the metrics task
(`request_counter.swap(0, Ordering::Relaxed)`, line 105 of `lib.rs`).
Atomic operations linearize, so an interleaving is a sequence of events. -/
inductive CounterOp where
  | inc
  | tick
deriving DecidableEq, Repr

/-- State of the request counter together with the list of per-period counts
the metrics task has emitted so far. -/
structure MetricsState where
  counter : Nat
  reports : List Nat
deriving DecidableEq, Repr

/-- One step: `fetch_add(1)` wraps at `usize`; `swap(0)` returns the prior
value (emitted as a report) and leaves the counter at zero. -/
def counterStep (s : MetricsState) : CounterOp → MetricsState
  | .inc => { s with counter := (s.counter + 1) % usizeMod }
  | .tick => { counter := 0, reports := s.reports ++ [s.counter] }

/-- Run an interleaving of increments and ticks from the initial state
(`AtomicUsize::new(0)`, line 81 of `lib.rs`; no reports yet). -/
def runCounterOps (ops : List CounterOp) : MetricsState :=
  ops.foldl counterStep ⟨0, []⟩

/-- Number of `inc` events in an interleaving. -/
def incCount : List CounterOp → Nat
  | [] => 0
  | .inc :: rest => incCount rest + 1
  | .tick :: rest => incCount rest

/-- The environment one run of `serve` meets: whether `init_db` returns `Ok`
(line 62 of `lib.rs`) and whether `TcpListener::bind` returns `Ok`
(line 179 of `lib.rs`). -/
structure ServeEnv where
  initDbOk : Bool
  bindOk : Bool
deriving DecidableEq, Repr

/-- Outcome of the `serve` startup sequence: the message of the panic that
terminated it, if any, and whether `axum::serve` was reached (requests are
served only past line 181 of `lib.rs`). -/
structure ServeResult where
  panicMsg : Option String
  beganServing : Bool
deriving DecidableEq, Repr

/-- Startup sequence of `serve` (lines 56–185 of `lib.rs`): `init_db` is
unwrapped with `expect`, so failure panics before the state, routers or any
task exists; the bind result is unwrapped, so failure panics before
`axum::serve` runs; otherwise serving begins. -/
def serveStartup (env : ServeEnv) : ServeResult :=
  if !env.initDbOk then
    { panicMsg := some "Cannot initialize connection to SQLite database!"
      beganServing := false }
  else if !env.bindOk then
    { panicMsg := some "called Result::unwrap() on an Err value"
      beganServing := false }
  else
    { panicMsg := none, beganServing := true }

/-- The request headers as the span factory sees them: for each header name,
`none` when the header is absent, `some none` when present but not a valid
string (`to_str()` fails), `some (some s)` when `to_str()` yields `s`. -/
def HeaderMap : Type := String → Option (Option String)

/-- `headers.get(name).and_then(|value| value.to_str().ok())`. -/
def getValidHeader (headers : HeaderMap) (name : String) : Option String :=
  (headers name).bind id

/-- The client identity computed by `make_span_with`
(lines 127–138 of `lib.rs`): `Lrclib-Client`, `or_else` `X-User-Agent`,
`or_else` the standard `user-agent` header, `unwrap_or("")`. -/
def spanUserAgent (headers : HeaderMap) : String :=
  (((getValidHeader headers "Lrclib-Client").orElse
      (fun _ => getValidHeader headers "X-User-Agent")).orElse
      (fun _ => getValidHeader headers "user-agent")).getD ""

/-- Timing shape of one spawned periodic task: an initial
`tokio::time::sleep`, then `tokio::time::interval` whose first tick
completes immediately and whose later ticks are one period apart. -/
structure PeriodicTask where
  initialSleep : Nat
  period : Nat
deriving DecidableEq, Repr

/-- The metrics task (lines 100–108 of `lib.rs`): `sleep(60)` then
`interval(60)`. -/
def metricsTask : PeriodicTask := ⟨60, 60⟩

/-- The recent-lyrics task (lines 111–120 of `lib.rs`): `sleep(60)` then
`interval(60)`. -/
def recentLyricsTask : PeriodicTask := ⟨60, 60⟩

/-- Idealized start time (seconds from spawn) of the n-th body run of a
periodic task: the initial sleep, then the immediate first interval tick,
then one period per further tick. -/
def PeriodicTask.nthBodyStart (t : PeriodicTask) (n : Nat) : Nat :=
  t.initialSleep + t.period * n

/-- What one tick of the recent-lyrics task meets: both fallible calls
succeed with a 10-minute count `c`, or `pool.get()` fails (line 116 of
`lib.rs`), or `get_last_10_mins_lyrics_count` fails (line 117). -/
inductive RecentTickEnv where
  | ok (c : Nat)
  | poolErr
  | queryErr
deriving DecidableEq, Repr

/-- The recent-lyrics task's visible state: the `recent_lyrics_count`
atomic and whether the task has panicked (a panicked tokio task never runs
again and nothing in `serve` respawns it). -/
structure RecentTaskState where
  counter : Nat
  panicked : Bool
deriving DecidableEq, Repr

/-- One tick of the recent-lyrics task body (lines 114–119 of `lib.rs`):
after a panic nothing runs; otherwise errors from `pool.get().unwrap()` or
from the query's `unwrap()` panic the task, and on success the count is
stored into the atomic (`store`, an overwrite, with `count as usize`). -/
def recentTick (s : RecentTaskState) : RecentTickEnv → RecentTaskState
  | .ok c => if s.panicked then s else { s with counter := c % usizeMod }
  | .poolErr => if s.panicked then s else { s with panicked := true }
  | .queryErr => if s.panicked then s else { s with panicked := true }

/-- Run the recent-lyrics task over a sequence of tick environments. -/
def runRecentTask (s : RecentTaskState) (envs : List RecentTickEnv) :
    RecentTaskState :=
  envs.foldl recentTick s

/-- `on_request` write to the request counter (line 161 of `lib.rs`):
`fetch_add(1, Ordering::Relaxed)` on `AtomicUsize`, which wraps at
`2 ^ 64`. Returns the new stored value. -/
def requestCounterWrite (prev : Nat) : Nat := (prev + 1) % usizeMod

/-- Recent-lyrics-task write to `recent_lyrics_count` (line 118 of
`lib.rs`): `store(count as usize, Ordering::Relaxed)`, an overwrite of the
previous value. Returns the new stored value. -/
def recentLyricsWrite (_prev : Nat) (count : Nat) : Nat := count % usizeMod

/-- Whether the `terminate` branch of `shutdown_signal` ever completes
(lines 188–197 of `lib.rs`): on unix it completes when SIGTERM is
received; elsewhere it is `std::future::pending`, which never completes. -/
def terminateBranchCompletes (unix sigterm : Bool) : Bool :=
  if unix then sigterm else false

/-- Whether the `shutdown_signal` future completes (lines 205–212 of
`lib.rs`): the `tokio::select!` completes when the Ctrl+C branch or the
`terminate` branch completes. -/
def shutdownSignalCompletes (unix ctrlC sigterm : Bool) : Bool :=
  ctrlC || terminateBranchCompletes unix sigterm

/-! Helper lemmas shared by the claim theorems. -/

theorem applyQueueOp_cap {α : Type} (q : ArrayQueue α) (op : QueueOp α) :
    (applyQueueOp q op).cap = q.cap := by
  cases op with
  | push x =>
    simp only [applyQueueOp, ArrayQueue.push]
    split <;> rfl
  | pop =>
    cases q with
    | mk cap items => cases items <;> rfl

theorem applyQueueOp_length {α : Type} (q : ArrayQueue α) (op : QueueOp α)
    (h : q.items.length ≤ q.cap) :
    (applyQueueOp q op).items.length ≤ q.cap := by
  cases op with
  | push x =>
    simp only [applyQueueOp, ArrayQueue.push]
    split
    · exact h
    · rename_i hlt
      simp only [List.length_append, List.length_cons, List.length_nil]
      omega
  | pop =>
    cases q with
    | mk cap items =>
      cases items with
      | nil => exact h
      | cons a rest =>
        simp only [applyQueueOp, ArrayQueue.pop] at *
        simp only [List.length_cons] at h
        omega

theorem runQueueOps_cap {α : Type} (ops : List (QueueOp α)) (q : ArrayQueue α) :
    (runQueueOps q ops).cap = q.cap := by
  induction ops generalizing q with
  | nil => rfl
  | cons op rest ih =>
    simp only [runQueueOps, List.foldl_cons] at *
    rw [ih (applyQueueOp q op), applyQueueOp_cap]

theorem runQueueOps_length {α : Type} (ops : List (QueueOp α)) (q : ArrayQueue α)
    (h : q.items.length ≤ q.cap) :
    (runQueueOps q ops).items.length ≤ q.cap := by
  induction ops generalizing q with
  | nil => exact h
  | cons op rest ih =>
    simp only [runQueueOps, List.foldl_cons] at *
    calc (rest.foldl applyQueueOp (applyQueueOp q op)).items.length
        ≤ (applyQueueOp q op).cap :=
          ih (applyQueueOp q op)
            (by rw [applyQueueOp_cap]; exact applyQueueOp_length q op h)
      _ = q.cap := applyQueueOp_cap q op

/-! Claim theorems. -/

/-- C1: the missing-track queue is constructed once with fixed capacity
600,000; its capacity never changes and its length never exceeds 600,000
under any sequence of enqueue/dequeue operations, and a push onto a full
queue returns the item back to the caller (the drop indication) without
blocking and without inserting it. -/
theorem c1_missing_track_queue_bounded
    (ops : List (QueueOp MissingTrack)) (q : ArrayQueue MissingTrack)
    (x : MissingTrack) :
    missingTrackQueue.cap = 600000 ∧
    (runQueueOps missingTrackQueue ops).cap = 600000 ∧
    (runQueueOps missingTrackQueue ops).items.length ≤ 600000 ∧
    (q.items.length = q.cap → q.push x = (q, some x)) := by
  refine ⟨rfl, runQueueOps_cap ops missingTrackQueue, ?_, ?_⟩
  · exact runQueueOps_length ops missingTrackQueue
      (by simp [missingTrackQueue, ArrayQueue.new])
  · intro hfull
    simp [ArrayQueue.push, hfull]

/-- Witness for C1: a concrete full queue (capacity 1 holding one track)
rejects a push, returning the dropped item unchanged. -/
theorem c1_missing_track_queue_bounded_witness :
    (⟨1, [sampleTrack]⟩ : ArrayQueue MissingTrack).items.length
      = (⟨1, [sampleTrack]⟩ : ArrayQueue MissingTrack).cap ∧
    (⟨1, [sampleTrack]⟩ : ArrayQueue MissingTrack).push sampleTrack
      = (⟨1, [sampleTrack]⟩, some sampleTrack) :=
  ⟨rfl,
   (c1_missing_track_queue_bounded [] ⟨1, [sampleTrack]⟩ sampleTrack).2.2.2 rfl⟩

/-- C2: the three cache tiers are constructed with exactly the configured
policies — challenge: TTL 5 minutes, no TTI, capacity 100,000; get: TTL
7 days, no TTI, capacity 5,000,000; search: TTL 24 hours, TTI 4 hours,
capacity 400,000. The configuration is a fixed value; nothing in `serve`
reconfigures it after construction. -/
theorem c2_cache_tier_policies :
    appStateConfig.challengeCache = ⟨some (5 * 60), none, 100000⟩ ∧
    appStateConfig.getCache = ⟨some (7 * 24 * 60 * 60), none, 5000000⟩ ∧
    appStateConfig.searchCache
      = ⟨some (24 * 60 * 60), some (4 * 60 * 60), 400000⟩ := by
  decide

/-- C3: a metrics tick reports exactly the prior-period counter value and
leaves the counter at zero, and over any interleaving of increments and
ticks every increment is accounted exactly once: the reported counts plus
the residual counter equal the number of increments (modulo the `usize`
wrap of `fetch_add`). -/
theorem c3_request_counter_swap_exact (ops : List CounterOp) (s : MetricsState) :
    (counterStep s .tick).reports = s.reports ++ [s.counter] ∧
    (counterStep s .tick).counter = 0 ∧
    ((runCounterOps ops).reports.sum + (runCounterOps ops).counter) % usizeMod
      = incCount ops % usizeMod := by
  refine ⟨rfl, rfl, ?_⟩
  have key : ∀ (l : List CounterOp) (t : MetricsState),
      ((l.foldl counterStep t).reports.sum + (l.foldl counterStep t).counter)
          % usizeMod
        = (t.reports.sum + t.counter + incCount l) % usizeMod := by
    intro l
    induction l with
    | nil => intro t; simp [incCount]
    | cons op rest ih =>
      intro t
      cases op with
      | inc =>
        simp only [List.foldl_cons, counterStep, incCount]
        rw [ih]
        simp only [usizeMod]
        omega
      | tick =>
        simp only [List.foldl_cons, counterStep, incCount]
        rw [ih]
        simp only [List.sum_append, List.sum_cons, List.sum_nil, usizeMod]
        omega
  have h0 := key ops ⟨0, []⟩
  simpa [runCounterOps] using h0

/-- C4 counterexample: the claim says the periodic storage query's write to
the recent-lyrics counter never decreases it, but the write is an
overwrite: with previous value 5 and query result 3 the stored value is 3,
a decrease. -/
theorem c4_counter_monotone_counterexample :
    recentLyricsWrite 5 3 = 3 ∧ recentLyricsWrite 5 3 < 5 := by
  decide

/-- C4 amended: request-handler writes to the request counter add one
(modulo the `usize` wrap), so below `usize::MAX` they strictly increase the
counter; the recent-lyrics counter's periodic write is an overwrite with
the query result and is not monotone. -/
theorem c4_amended_counter_writes (prev count : Nat) :
    (prev + 1 < usizeMod → requestCounterWrite prev = prev + 1) ∧
    recentLyricsWrite prev count = count % usizeMod := by
  constructor
  · intro h
    simp [requestCounterWrite, Nat.mod_eq_of_lt h]
  · rfl

/-- Witness for C4's amended theorem at previous value 5 and query result 3. -/
theorem c4_amended_counter_writes_witness :
    5 + 1 < usizeMod ∧ requestCounterWrite 5 = 5 + 1 :=
  ⟨by decide, (c4_amended_counter_writes 5 3).1 (by decide)⟩

/-- C5: if `init_db` fails, or if the listener bind fails, `serve` panics
and never reaches `axum::serve`, so no request is ever served. -/
theorem c5_startup_failures_fatal (env : ServeEnv) :
    (env.initDbOk = false →
      (serveStartup env).panicMsg.isSome = true ∧
      (serveStartup env).beganServing = false) ∧
    (env.bindOk = false →
      (serveStartup env).panicMsg.isSome = true ∧
      (serveStartup env).beganServing = false) := by
  cases env with
  | mk db bind => cases db <;> cases bind <;> simp [serveStartup]

/-- Witness for C5: with a failing `init_db` and a working bind, `serve`
panics without serving. -/
theorem c5_startup_failures_fatal_witness :
    (ServeEnv.mk false true).initDbOk = false ∧
    (serveStartup ⟨false, true⟩).panicMsg.isSome = true ∧
    (serveStartup ⟨false, true⟩).beganServing = false :=
  ⟨rfl, (c5_startup_failures_fatal ⟨false, true⟩).1 rfl⟩

/-- A concrete header map for instantiating statements: `Lrclib-Client`
absent, `X-User-Agent` present and valid. -/
def sampleHeaders : HeaderMap :=
  fun n => if n = "X-User-Agent" then some (some "abc") else none

/-- C6: the request-span client identity is the `Lrclib-Client` header when
present and valid, else the `X-User-Agent` header when present and valid,
else the standard `user-agent` header, else the empty string — exactly
that fallback order. -/
theorem c6_client_identity_fallback (headers : HeaderMap) (s : String) :
    (headers "Lrclib-Client" = some (some s) → spanUserAgent headers = s) ∧
    (getValidHeader headers "Lrclib-Client" = none →
      headers "X-User-Agent" = some (some s) → spanUserAgent headers = s) ∧
    (getValidHeader headers "Lrclib-Client" = none →
      getValidHeader headers "X-User-Agent" = none →
      headers "user-agent" = some (some s) → spanUserAgent headers = s) ∧
    (getValidHeader headers "Lrclib-Client" = none →
      getValidHeader headers "X-User-Agent" = none →
      getValidHeader headers "user-agent" = none →
      spanUserAgent headers = "") := by
  refine ⟨?_, ?_, ?_, ?_⟩
  · intro h
    have h' : getValidHeader headers "Lrclib-Client" = some s := by
      simp [getValidHeader, h]
    unfold spanUserAgent
    rw [h']
    rfl
  · intro h1 h2
    have h2' : getValidHeader headers "X-User-Agent" = some s := by
      simp [getValidHeader, h2]
    unfold spanUserAgent
    rw [h1, h2']
    rfl
  · intro h1 h2 h3
    have h3' : getValidHeader headers "user-agent" = some s := by
      simp [getValidHeader, h3]
    unfold spanUserAgent
    rw [h1, h2, h3']
    rfl
  · intro h1 h2 h3
    unfold spanUserAgent
    rw [h1, h2, h3]
    rfl

/-- Witness for C6: with `Lrclib-Client` absent and a valid `X-User-Agent`,
the span identity is the `X-User-Agent` value. -/
theorem c6_client_identity_fallback_witness :
    getValidHeader sampleHeaders "Lrclib-Client" = none ∧
    sampleHeaders "X-User-Agent" = some (some "abc") ∧
    spanUserAgent sampleHeaders = "abc" :=
  ⟨rfl, rfl, (c6_client_identity_fallback sampleHeaders "abc").2.1 rfl rfl⟩

/-- C7: each of the two metrics background tasks first sleeps 60 seconds and
then runs its body once per 60-second tick, for every tick index `n` — the
first body run is at 60 seconds and consecutive runs are exactly 60 seconds
apart, for both tasks. -/
theorem c7_periodic_tasks_schedule (n : Nat) :
    metricsTask.nthBodyStart 0 = 60 ∧
    recentLyricsTask.nthBodyStart 0 = 60 ∧
    metricsTask.nthBodyStart (n + 1) = metricsTask.nthBodyStart n + 60 ∧
    recentLyricsTask.nthBodyStart (n + 1) = recentLyricsTask.nthBodyStart n + 60 := by
  refine ⟨rfl, rfl, ?_, ?_⟩ <;>
    simp [PeriodicTask.nthBodyStart, metricsTask, recentLyricsTask] <;> omega

/-- C8: a successful tick of the recent-lyrics task overwrites the
recent-activity counter with the query result: the stored value does not
depend on the counter's previous value, and equals the query result. -/
theorem c8_recent_lyrics_store_overwrites (prev prev' c : Nat) :
    (recentTick ⟨prev, false⟩ (.ok c)).counter
      = (recentTick ⟨prev', false⟩ (.ok c)).counter ∧
    (c < usizeMod → (recentTick ⟨prev, false⟩ (.ok c)).counter = c) := by
  constructor
  · rfl
  · intro h
    simp [recentTick, Nat.mod_eq_of_lt h]

/-- Witness for C8: previous value 5, query result 3 — the stored value is
3, the same as from previous value 7. -/
theorem c8_recent_lyrics_store_overwrites_witness :
    3 < usizeMod ∧ (recentTick ⟨5, false⟩ (.ok 3)).counter = 3 :=
  ⟨by decide, (c8_recent_lyrics_store_overwrites 5 7 3).2 (by decide)⟩

theorem recentTick_of_panicked (s : RecentTaskState) (e : RecentTickEnv)
    (h : s.panicked = true) : recentTick s e = s := by
  cases e <;> simp [recentTick, h]

theorem runRecentTask_of_panicked (envs : List RecentTickEnv)
    (s : RecentTaskState) (h : s.panicked = true) :
    runRecentTask s envs = s := by
  induction envs with
  | nil => rfl
  | cons e rest ih =>
    simp only [runRecentTask, List.foldl_cons] at *
    rw [recentTick_of_panicked s e h, ih]

theorem runRecentTask_append (l₁ l₂ : List RecentTickEnv)
    (s : RecentTaskState) :
    runRecentTask s (l₁ ++ l₂) = runRecentTask (runRecentTask s l₁) l₂ :=
  List.foldl_append recentTick s l₁ l₂

/-- C9: once a tick of the recent-lyrics task hits a pool or query error,
the task panics: afterwards it is panicked for good, the recent-activity
counter keeps the value it had before the failing tick, and no later tick
environment changes the state at all. -/
theorem c9_recent_task_panic_permanent (pre post : List RecentTickEnv)
    (e : RecentTickEnv) (s : RecentTaskState)
    (he : e = .poolErr ∨ e = .queryErr) :
    (runRecentTask s (pre ++ e :: post)).panicked = true ∧
    (runRecentTask s (pre ++ e :: post)).counter
      = (runRecentTask s pre).counter ∧
    ∀ more : List RecentTickEnv,
      runRecentTask s ((pre ++ e :: post) ++ more)
        = runRecentTask s (pre ++ e :: post) := by
  have hsplit : runRecentTask s (pre ++ e :: post)
      = runRecentTask (recentTick (runRecentTask s pre) e) post := by
    rw [runRecentTask_append]
    rfl
  set s' := runRecentTask s pre with hs'
  have hstep : (recentTick s' e).panicked = true ∧
      (recentTick s' e).counter = s'.counter := by
    rcases he with h | h <;> subst h <;>
      cases hp : s'.panicked <;> simp [recentTick, hp]
  have hafter : runRecentTask (recentTick s' e) post = recentTick s' e :=
    runRecentTask_of_panicked post (recentTick s' e) hstep.1
  refine ⟨?_, ?_, ?_⟩
  · rw [hsplit, hafter]; exact hstep.1
  · rw [hsplit, hafter]; exact hstep.2
  · intro more
    rw [runRecentTask_append]
    exact runRecentTask_of_panicked more _ (by rw [hsplit, hafter]; exact hstep.1)

/-- Witness for C9: a pool error on the second tick freezes the counter at
the value 7 stored by the first tick. -/
theorem c9_recent_task_panic_permanent_witness :
    ((RecentTickEnv.poolErr = RecentTickEnv.poolErr) ∨
      (RecentTickEnv.poolErr = RecentTickEnv.queryErr)) ∧
    (runRecentTask ⟨0, false⟩ ([.ok 7] ++ .poolErr :: [.ok 9])).panicked = true ∧
    (runRecentTask ⟨0, false⟩ ([.ok 7] ++ .poolErr :: [.ok 9])).counter
      = (runRecentTask ⟨0, false⟩ [.ok 7]).counter :=
  ⟨Or.inl rfl,
   (c9_recent_task_panic_permanent [.ok 7] [.ok 9] .poolErr ⟨0, false⟩
      (Or.inl rfl)).1,
   (c9_recent_task_panic_permanent [.ok 7] [.ok 9] .poolErr ⟨0, false⟩
      (Or.inl rfl)).2.1⟩

/-- C10: on non-unix platforms the terminate branch never completes, so
`shutdown_signal` completes exactly when Ctrl+C is received; on unix it
completes exactly when Ctrl+C or SIGTERM is received. -/
theorem c10_shutdown_signal_platform (ctrlC sigterm : Bool) :
    terminateBranchCompletes false sigterm = false ∧
    shutdownSignalCompletes false ctrlC sigterm = ctrlC ∧
    shutdownSignalCompletes true ctrlC sigterm = (ctrlC || sigterm) := by
  cases ctrlC <;> cases sigterm <;> exact ⟨rfl, rfl, rfl⟩

end LrclibServer
